import Mathlib

set_option maxRecDepth 100000

/-!
Verification of the pipeline topology and repository lifecycle synthesizer
(`PipelineStack` in `backend/dataall/cdkproxy/stacks/pipeline.py`).

The Python code is shallowly embedded: every pure fragment becomes a Lean
function with the source's name, and the effectful control flow of
`PipelineStack.__init__` (repository probe, update/bootstrap branch, local
artifact lifecycle) becomes explicit state passing over small inductive
types.  All definitions are executable.
-/

namespace PipelineStack

/-- `models.DataPipeline`: the declarative pipeline record (read-only input). -/
structure DataPipeline where
  DataPipelineUri : String
  name : String
  label : String
  description : String
  repo : String
  devStrategy : String
  template : String
  environmentUri : String
  SamlGroupName : String
deriving Repr, DecidableEq

/-- `models.Environment`: the CICD hosting environment of a pipeline. -/
structure CicdEnvironment where
  AwsAccountId : String
  region : String
  environmentUri : String
deriving Repr, DecidableEq

/-- `models.DataPipelineEnvironment`: one ordered deployment target. -/
structure DataPipelineEnvironment where
  stage : String
  order : Int
  AwsAccountId : String
  region : String
  environmentUri : String
  samlGroupName : String
deriving Repr, DecidableEq

/-! ## Repository probe (`_check_repository`) and the update/bootstrap branch -/

/-- Metadata returned by a successful `codecommit get_repository` call. -/
structure RepositoryMetadata where
  repositoryName : String
deriving Repr, DecidableEq

/-- Outcome of the remote `get_repository` call: either it returns metadata
or it raises a `ClientError` carrying an error code string. -/
inductive CodeCommitProbe where
  | success (meta : RepositoryMetadata)
  | clientError (code : String)
deriving Repr, DecidableEq

/-- `PipelineStack._check_repository`: returns the repository metadata, maps a
`RepositoryDoesNotExistException` client error to `none`, and re-raises every
other client error (modelled as `Except.error` carrying the error code). -/
def check_repository (probe : CodeCommitProbe) : Except String (Option RepositoryMetadata) :=
  match probe with
  | .success meta => .ok (some meta)
  | .clientError code =>
      if code == "RepositoryDoesNotExistException" then .ok none else .error code

/-- The two code paths of `PipelineStack.__init__` after probing. -/
inductive InitPath where
  | update
  | bootstrap
deriving Repr, DecidableEq

/-- The branch taken by `PipelineStack.__init__` lines 175-228: the whole probe
and update block sits in a `try`; when `_check_repository` returns a repository
the update path runs, when it returns `None` the code raises a bare `Exception`,
and the blanket `except Exception` handler runs the bootstrap path.  The
re-raised client errors from `_check_repository` are caught by that same
blanket handler, so they also land on the bootstrap path. -/
def repository_path (probe : CodeCommitProbe) : InitPath :=
  match check_repository probe with
  | .ok (some _) => .update
  | .ok none => .bootstrap
  | .error _ => .bootstrap

/-! ## Update path: descriptor commit via the shelled-out CLI (`__init__` lines 183-196) -/

/-- Outcome of the `aws codecommit put-file` call keyed by a parent commit id:
either a new commit, or a rejection because the parent commit id is stale. -/
inductive PutFileResult where
  | success (commitId : String)
  | parentCommitIdOutdated
deriving Repr, DecidableEq

/-- The `subprocess.CompletedProcess` value bound to `process`. -/
structure CompletedProcess where
  returncode : Int
deriving Repr, DecidableEq

/-- The shell command sequence of the update path (`get-branch` then
`put-file`): the CLI exits 0 on success and nonzero when the put-file call is
rejected for a stale parent commit id. -/
def run_update_commands (res : PutFileResult) : CompletedProcess :=
  match res with
  | .success _ => { returncode := 0 }
  | .parentCommitIdOutdated => { returncode := 255 }

/-- What the update path reports to the rest of the run. -/
inductive UpdateOutcome where
  | continued
  | raised (code : String)
deriving Repr, DecidableEq

/-- The update path of `__init__`: it binds `process = subprocess.run(...)`
(no `check=True`) and never inspects `process.returncode`, so control always
continues normally whatever the commit outcome was. -/
def update_repository (res : PutFileResult) : UpdateOutcome :=
  let process := run_update_commands res
  let _ := process.returncode
  .continued

/-! ## Stack description truncation (`__init__` lines 99-105) -/

/-- The stack `description` argument: the formatted string
`"Cloud formation stack of PIPELINE: {label}; URI: {uri}; DESCRIPTION: {description}"`
sliced with `[:1024]` (character slice, modelled as `List.take` on the
character data). -/
def stack_description (pipeline : DataPipeline) (target_uri : String) : String :=
  ⟨(("Cloud formation stack of PIPELINE: " ++ pipeline.label ++ "; URI: " ++ target_uri
      ++ "; DESCRIPTION: " ++ pipeline.description).data.take 1024)⟩

/-! ## Build environment variables (`make_environment_variables`) -/

/-- The value of a `codebuild.BuildEnvironmentVariable`: the source passes
either a scalar string attribute or (for `DEV_STAGES`) the stage list. -/
inductive BuildEnvVarValue where
  | str (s : String)
  | strList (l : List String)
deriving Repr, DecidableEq

/-- `PipelineStack.make_environment_variables`: the build environment variable
mapping, one entry per key in the source's dict literal, in source order. -/
def make_environment_variables (pipeline : DataPipeline)
    (pipeline_environment : DataPipelineEnvironment) (pipeline_env_team : String)
    (stage : String) (stages : List String) : List (String × BuildEnvVarValue) :=
  [("PIPELINE_URI", .str pipeline.DataPipelineUri),
   ("PIPELINE_NAME", .str pipeline.name),
   ("STAGE", .str stage),
   ("DEV_STAGES", .strList stages),
   ("DEV_STRATEGY", .str pipeline.devStrategy),
   ("TEMPLATE", .str pipeline.template),
   ("ENVIRONMENT_URI", .str pipeline_environment.environmentUri),
   ("AWSACCOUNTID", .str pipeline_environment.AwsAccountId),
   ("AWSREGION", .str pipeline_environment.region),
   ("ENVTEAM_ROLENAME", .str pipeline_env_team)]

/-! ## Topology synthesis (`__init__` lines 230-357) -/

/-- One CodePipeline stage as added by `add_stage`: the source action (with its
branch), a deploy stage (with its build project's environment variables), or a
manual approval gate. -/
inductive PipelineStage where
  | source (name branch : String)
  | deployStage (name : String) (envVars : List (String × BuildEnvVarValue))
  | manualApproval (name : String)
deriving Repr, DecidableEq

/-- The stage name passed to `add_stage`. -/
def stageName : PipelineStage → String
  | .source n _ => n
  | .deployStage n _ => n
  | .manualApproval n => n

/-- Whether a stage is a manual approval gate. -/
def isApproval : PipelineStage → Bool
  | .manualApproval _ => true
  | _ => false

/-- One synthesized CodePipeline pipeline. -/
structure SynthPipeline where
  name : String
  stages : List PipelineStage
deriving Repr, DecidableEq

/-- The branches of the `source` stages of a pipeline. -/
def sourceBranches (pl : SynthPipeline) : List String :=
  pl.stages.filterMap fun st =>
    match st with
    | .source _ b => some b
    | _ => none

/-- Insert an environment into a list sorted ascending by `order`, before the
first element whose `order` is not smaller (stable insertion). -/
def insertByOrder (e : DataPipelineEnvironment) :
    List DataPipelineEnvironment → List DataPipelineEnvironment
  | [] => [e]
  | x :: xs => if x.order < e.order then x :: insertByOrder e xs else e :: x :: xs

/-- `sorted(development_environments, key=lambda env: env.order)`: a stable
sort ascending by `order`. -/
def sortByOrder : List DataPipelineEnvironment → List DataPipelineEnvironment
  | [] => []
  | e :: rest => insertByOrder e (sortByOrder rest)

/-- The trunk strategy stage list (`__init__` lines 230-297): a poll-triggered
`Source` stage on branch `main`, then per environment sorted ascending by
`order` a `Deploy-Stage-<stage>` build stage, followed by a
`ManualApproval-<stage>` stage whenever `env.order < development_environments.count()`
(the source's guard, commented "Skip manual approval for one stage pipelines
and for last stage"). -/
def trunk_stages (pipeline : DataPipeline)
    (development_environments : List DataPipelineEnvironment) : List PipelineStage :=
  let devStages := development_environments.map fun env => env.stage
  PipelineStage.source "Source" "main" ::
  ((sortByOrder development_environments).map fun env =>
    PipelineStage.deployStage ("Deploy-Stage-" ++ env.stage)
      (make_environment_variables pipeline env env.samlGroupName env.stage devStages) ::
    (if env.order < (development_environments.length : Int) then
      [PipelineStage.manualApproval ("ManualApproval-" ++ env.stage)]
    else [])).flatten

/-- The gitflow strategy (`__init__` lines 299-357): one independent pipeline
per environment named `<pipeline-name>-<stage>`, whose source stage is bound to
branch `main` when `env.stage == 'prod'` and to the branch named after the
stage otherwise, followed by a single deploy stage; no approval stage exists on
this path. -/
def gitflow_pipelines (pipeline : DataPipeline)
    (development_environments : List DataPipelineEnvironment) : List SynthPipeline :=
  let devStages := development_environments.map fun env => env.stage
  development_environments.map fun env =>
    let branch_name := if env.stage == "prod" then "main" else env.stage
    { name := pipeline.name ++ "-" ++ env.stage,
      stages :=
        [PipelineStage.source ("Source-" ++ env.stage) branch_name,
         PipelineStage.deployStage ("Deploy-Stage-" ++ env.stage)
           (make_environment_variables pipeline env env.samlGroupName env.stage devStages)] }

/-- The strategy dispatch of `__init__`: `if pipeline.devStrategy == "trunk"`
one pipeline named after the pipeline with the trunk stage list, `else` the
gitflow pipelines. -/
def pipeline_topology (pipeline : DataPipeline)
    (development_environments : List DataPipelineEnvironment) : List SynthPipeline :=
  if pipeline.devStrategy == "trunk" then
    [{ name := pipeline.name, stages := trunk_stages pipeline development_environments }]
  else
    gitflow_pipelines pipeline development_environments

/-! ## Local artifact lifecycle (`__init__` bootstrap/update blocks and lines 373-400) -/

/-- The local filesystem, as the list of paths that exist. -/
abbrev Disk := List String

/-- Create a path (file or directory marker). -/
def addPath (p : String) (d : Disk) : Disk := d ++ [p]

/-- `PipelineStack.cleanup_zip_directory`: remove `{path}/code.zip` when it
exists, otherwise do nothing (the source only logs). -/
def cleanup_zip_directory (path : String) (d : Disk) : Disk :=
  d.filter fun q => q != path ++ "/code.zip"

/-- Structural prefix test on character lists. -/
def charsPrefixOf : List Char → List Char → Bool
  | [], _ => true
  | _ :: _, [] => false
  | a :: as, b :: bs => a == b && charsPrefixOf as bs

/-- `p` is a textual prefix of `q`. -/
def strPrefixOf (p q : String) : Bool := charsPrefixOf p.data q.data

/-- `PipelineStack.cleanup_pipeline_directory`: `shutil.rmtree` of the rendered
pipeline directory — removes the directory and everything under it. -/
def cleanup_pipeline_directory (path : String) (d : Disk) : Disk :=
  d.filter fun q => !(q == path || strPrefixOf (path ++ "/") q)

/-- The blueprint working directory (`code_dir_path` in the source). -/
def codeDirPath : String := "blueprints/data_pipeline_blueprint"

/-- The steps of a run that follow the update/bootstrap block and can fail
(raise) in the source: the asset upload, the topology synthesis block, the
tagging pass, and the cdk-nag compliance check. -/
inductive SynthStep where
  | assetUpload
  | topologySynthesis
  | tagging
  | complianceCheck
deriving Repr, DecidableEq

/-- The tail of `__init__` after the update/bootstrap block (lines 230-378):
topology synthesis, tagging and the compliance check run with *no* enclosing
`try/finally`, so a failure injected at any of them returns control with the
disk as-is; only the successful fall-through reaches the two cleanup calls. -/
def run_tail (repo : String) (failAt : Option SynthStep) (d : Disk) :
    Option SynthStep × Disk :=
  if failAt == some SynthStep.topologySynthesis then (some SynthStep.topologySynthesis, d)
  else if failAt == some SynthStep.tagging then (some SynthStep.tagging, d)
  else if failAt == some SynthStep.complianceCheck then (some SynthStep.complianceCheck, d)
  else
    let d1 := cleanup_zip_directory codeDirPath d
    let d2 := cleanup_pipeline_directory (codeDirPath ++ "/" ++ repo) d1
    (none, d2)

/-- One synthesis run of `PipelineStack.__init__` as it touches the local
disk.  On the update path (repository present) only `ddk.json` is rendered at
the blueprint root; on the bootstrap path `initialize_repo` renders the
blueprint tree `{code_dir_path}/{repo}`, the buildspec and descriptor are
written into it, `cleanup_zip_directory` pre-cleans a leftover root archive,
and `zip_directory` places `code.zip` inside the rendered tree before the
asset upload.  A failure at `failAt` propagates immediately (the source has no
handler around these steps), otherwise the run finishes through `run_tail`. -/
def pipelineStack_run (repo : String) (repoExists : Bool) (failAt : Option SynthStep) :
    Option SynthStep × Disk :=
  let d0 : Disk := []
  let repoDir := codeDirPath ++ "/" ++ repo
  if repoExists then
    let d1 := addPath (codeDirPath ++ "/ddk.json") d0
    run_tail repo failAt d1
  else
    let d1 := addPath repoDir d0
    let d2 := addPath (repoDir ++ "/deploy_buildspec.yaml") d1
    let d3 := addPath (repoDir ++ "/ddk.json") d2
    let d4 := cleanup_zip_directory codeDirPath d3
    let d5 := addPath (repoDir ++ "/code.zip") d4
    if failAt == some SynthStep.assetUpload then (some SynthStep.assetUpload, d5)
    else run_tail repo failAt d5

/-! ## Descriptor rendering (`write_ddk_json_multienvironment`) -/

/-- The per-environment block appended to `json_envs` for each development
environment (the `json_env` f-string of the source). -/
def ddk_json_env (env : DataPipelineEnvironment) : String :=
  ",\n        \"" ++ (env.stage ++ ("\": \x7b\n            \"account\": \"" ++
    (env.AwsAccountId ++ ("\",\n            \"region\": \"" ++
    (env.region ++ ("\",\n            \"stage\": \"" ++
    (env.stage ++ ("\",\n            \"env_vars\": \x7b\n                \"database\": \"example_database\",\n                \"Team\": \"" ++
    (env.samlGroupName ++ "\"\n            \x7d\n        \x7d")))))))))

/-- `PipelineStack.write_ddk_json_multienvironment`: the rendered `ddk.json`
content — the `cicd` block from the CICD environment, then the accumulated
per-stage blocks. -/
def write_ddk_json_multienvironment (pipeline_environment : CicdEnvironment)
    (development_environments : List DataPipelineEnvironment) : String :=
  let json_envs := development_environments.foldl (fun acc env => acc ++ ddk_json_env env) ""
  "\x7b\n    \"environments\": \x7b\n        \"cicd\": \x7b\n            \"account\": \"" ++
    (pipeline_environment.AwsAccountId ++ ("\",\n            \"region\": \"" ++
    (pipeline_environment.region ++ ("\",\n            \"stage\": \"cicd\"\n        \x7d" ++
    (json_envs ++ "\n    \x7d\n\x7d")))))

mutual
/-- A JSON value (restricted to the forms the descriptor uses). -/
inductive Json where
  | str (s : String)
  | obj (fields : JsonFields)
deriving Repr
/-- The ordered field list of a JSON object. -/
inductive JsonFields where
  | nil
  | cons (key : String) (value : Json) (rest : JsonFields)
deriving Repr
end

/-- `n` spaces of indentation. -/
def indentStr (n : Nat) : String := ⟨List.replicate n ' '⟩

mutual
/-- Render a JSON value at indentation `ind` with 4-space nesting, the layout
of the descriptor file. -/
def renderJson (ind : Nat) : Json → String
  | .str s => "\"" ++ (s ++ "\"")
  | .obj fields => "\x7b\n" ++ (renderFields (ind + 4) fields ++ ("\n" ++ (indentStr ind ++ "\x7d")))
/-- Render an object's field list (first field). -/
def renderFields (ind : Nat) : JsonFields → String
  | .nil => ""
  | .cons k v rest =>
      indentStr ind ++ ("\"" ++ (k ++ ("\": " ++ (renderJson ind v ++ renderFieldsRest ind rest))))
/-- Render an object's remaining fields, each preceded by a comma separator. -/
def renderFieldsRest (ind : Nat) : JsonFields → String
  | .nil => ""
  | .cons k v rest =>
      ",\n" ++ (indentStr ind ++ ("\"" ++ (k ++ ("\": " ++ (renderJson ind v ++ renderFieldsRest ind rest)))))
end

/-- The JSON object of one development environment's descriptor entry:
account, region, stage name and the variable bag holding the team. -/
def envEntryFields (env : DataPipelineEnvironment) : JsonFields :=
  .cons "account" (.str env.AwsAccountId)
    (.cons "region" (.str env.region)
      (.cons "stage" (.str env.stage)
        (.cons "env_vars"
          (.obj (.cons "database" (.str "example_database")
            (.cons "Team" (.str env.samlGroupName) .nil))) .nil)))

/-- The descriptor entries of the development environments, each keyed by its
stage. -/
def envsFields : List DataPipelineEnvironment → JsonFields
  | [] => .nil
  | env :: rest => .cons env.stage (.obj (envEntryFields env)) (envsFields rest)

/-- The structured descriptor document: the fixed top-level shape
`{"environments": {"cicd": {...}, <stage>: {...}, ...}}` with the `cicd` entry
carrying the CICD environment's account and region under stage name `cicd`. -/
def ddkDescriptor (pipeline_environment : CicdEnvironment)
    (development_environments : List DataPipelineEnvironment) : Json :=
  .obj (.cons "environments"
    (.obj (.cons "cicd"
      (.obj (.cons "account" (.str pipeline_environment.AwsAccountId)
        (.cons "region" (.str pipeline_environment.region)
          (.cons "stage" (.str "cicd") .nil))))
      (envsFields development_environments))) .nil)

/-! ## Buildspec rendering (`write_deploy_buildspec`) -/

/-- `PipelineStack.write_deploy_buildspec`: the literal `yaml` string written
to `deploy_buildspec.yaml` (the triple-quoted constant of the source). -/
def write_deploy_buildspec : String :=
  "\n            version: \x270.2\x27\n            env:\n                git-credential-helper: yes\n            phases:\n              pre_build:\n                commands:\n                - n 16.15.1\n                - npm install -g aws-cdk\n                - pip install aws-ddk\n                - pip install -r requirements.txt\n              build:\n                commands:\n                    - aws sts get-caller-identity\n                    - ddk deploy\n        "

/-- One buildspec phase: its name and its command list. -/
structure BuildspecPhase where
  name : String
  commands : List String
deriving Repr, DecidableEq

/-- A versioned buildspec: version, the `git-credential-helper` env flag and
the phase list. -/
structure Buildspec where
  version : String
  gitCredentialHelper : Bool
  phases : List BuildspecPhase
deriving Repr, DecidableEq

/-- The structured content of the rendered deploy buildspec: two phases,
`pre_build` installing the toolchain and `build` running the identity check
and the deploy command. -/
def deployBuildspec : Buildspec :=
  { version := "0.2",
    gitCredentialHelper := true,
    phases :=
      [{ name := "pre_build",
         commands := ["n 16.15.1", "npm install -g aws-cdk", "pip install aws-ddk",
                      "pip install -r requirements.txt"] },
       { name := "build",
         commands := ["aws sts get-caller-identity", "ddk deploy"] }] }

/-- Render the command lines of a phase at a fixed command indentation. -/
def renderCommands (cmdIndent : String) (cmds : List String) : String :=
  String.join (cmds.map fun c => cmdIndent ++ ("- " ++ (c ++ "\n")))

/-- Render one phase: its header, the `commands:` key, then its commands. -/
def renderPhase (phaseIndent cmdIndent : String) (ph : BuildspecPhase) : String :=
  phaseIndent ++ (ph.name ++ (":\n" ++ (phaseIndent ++ ("  commands:\n" ++
    renderCommands cmdIndent ph.commands))))

/-- Render the phase list, pairing each phase with its command indentation
(the source file indents the two phases' command lists differently). -/
def renderPhases (phaseIndent : String) : List String → List BuildspecPhase → String
  | _, [] => ""
  | [], _ => ""
  | ci :: cis, ph :: phs => renderPhase phaseIndent ci ph ++ renderPhases phaseIndent cis phs

/-- Render a buildspec in the layout of the rendered file. -/
def renderBuildspec (phaseIndent : String) (cmdIndents : List String) (b : Buildspec) : String :=
  "\n            version: \x27" ++ (b.version ++ ("\x27\n            env:\n                git-credential-helper: " ++
    ((if b.gitCredentialHelper then "yes" else "no") ++ ("\n            phases:\n" ++
    (renderPhases phaseIndent cmdIndents b.phases ++ "        ")))))

/-! ## Concrete fixtures used by the evaluation theorems -/

/-- A concrete pipeline record with the trunk strategy. -/
def p0 : DataPipeline :=
  { DataPipelineUri := "uri-1", name := "pip", label := "Label", description := "Desc",
    repo := "repo0", devStrategy := "trunk", template := "tpl",
    environmentUri := "env-uri", SamlGroupName := "team" }

/-- The same pipeline record under the gitflow strategy. -/
def p0gitflow : DataPipeline := { p0 with devStrategy := "gitflow" }

/-- A concrete development environment with the given stage and order. -/
def devEnv (stage : String) (order : Int) : DataPipelineEnvironment :=
  { stage := stage, order := order, AwsAccountId := "111111111111",
    region := "eu-west-1", environmentUri := "env-uri-" ++ stage,
    samlGroupName := "team-" ++ stage }

end PipelineStack

namespace PipelineStack

/-- Helper fact: probing with an error other than the not-found code surfaces
an `Except.error` from `check_repository` itself. -/
theorem check_repository_reraises (code : String)
    (h : code ≠ "RepositoryDoesNotExistException") :
    check_repository (.clientError code) = .error code := by
  simp [check_repository, h]

/-- C1: the claim says an inconclusive probe failure (auth, network,
throttling) aborts the run as fatal and the bootstrap path is taken only when
the probe conclusively reports the repository absent.  The code behaves
otherwise: `_check_repository` does re-raise a throttling `ClientError`, but
the blanket `except Exception` around the probe in `__init__` catches it and
runs the bootstrap path, exactly as it does for a conclusive
`RepositoryDoesNotExistException`. -/
theorem c1_probe_error_takes_bootstrap :
    check_repository (.clientError "ThrottlingException") = .error "ThrottlingException" ∧
    repository_path (.clientError "ThrottlingException") = .bootstrap ∧
    repository_path (.clientError "ThrottlingException") =
      repository_path (.clientError "RepositoryDoesNotExistException") :=
  ⟨rfl, rfl, rfl⟩

/-- C5: the claim says a descriptor commit rejected for a stale parent commit
id is surfaced to the caller and never silently dropped.  The code binds the
`subprocess.run` result without `check=True` and never reads `returncode`, so
a rejected `put-file` (nonzero exit) leaves the run indistinguishable from a
successful commit: the update path always continues. -/
theorem c5_stale_parent_commit_ignored :
    (run_update_commands .parentCommitIdOutdated).returncode ≠ 0 ∧
    update_repository .parentCommitIdOutdated = .continued ∧
    update_repository .parentCommitIdOutdated = update_repository (.success "newtip") :=
  ⟨by decide, rfl, rfl⟩

/-- C10: the stack description string built from the pipeline's label, URI and
free-text description is truncated to at most 1024 characters, whatever the
lengths of the label and the description. -/
theorem c10_description_truncated (pipeline : DataPipeline) (target_uri : String) :
    (stack_description pipeline target_uri).length ≤ 1024 := by
  show (List.take 1024 _).length ≤ 1024
  exact List.length_take_le 1024 _

/-- C2: the claim says trunk synthesis emits a `ManualApproval-<stage>` stage
after every deploy stage except the one of maximum `order`.  The source guard
is `env.order < development_environments.count()` (a comparison against the
list *length*), which matches the claim for contiguous 1-based orders
(first conjunct, the spec's `[1,2,3]` example) but emits a trailing approval
after the maximum-order stage for orders `[0,1]` (second conjunct),
contradicting the claim and the code's own comment "Skip manual approval for
one stage pipelines and for last stage". -/
theorem c2_trunk_approval_guard_eval :
    (trunk_stages p0 [devEnv "dev" 1, devEnv "test" 2, devEnv "prod" 3]).map stageName =
      ["Source", "Deploy-Stage-dev", "ManualApproval-dev", "Deploy-Stage-test",
       "ManualApproval-test", "Deploy-Stage-prod"] ∧
    (trunk_stages p0 [devEnv "dev" 0, devEnv "test" 1]).map stageName =
      ["Source", "Deploy-Stage-dev", "ManualApproval-dev", "Deploy-Stage-test",
       "ManualApproval-test"] :=
  ⟨rfl, rfl⟩

/-- C3: the claim says both strategies tolerate empty and single-element
environment lists, a single element producing one deploy stage and no approval
gate.  Empty lists and a single environment of order `1` behave as claimed
(first four conjuncts), but a single environment of order `0` makes the trunk
guard `env.order < count()` true and an approval gate is emitted after the
only stage (last conjunct), contradicting the claim and the code's own
comment. -/
theorem c3_degenerate_environment_lists_eval :
    pipeline_topology p0 [] = [{ name := "pip", stages := [PipelineStage.source "Source" "main"] }] ∧
    pipeline_topology p0gitflow [] = [] ∧
    ((pipeline_topology p0 [devEnv "dev" 1]).map fun pl => pl.stages.map stageName) =
      [["Source", "Deploy-Stage-dev"]] ∧
    ((pipeline_topology p0gitflow [devEnv "dev" 1]).map fun pl => pl.stages.map stageName) =
      [["Source-dev", "Deploy-Stage-dev"]] ∧
    ((pipeline_topology p0 [devEnv "dev" 0]).map fun pl => pl.stages.map stageName) =
      [["Source", "Deploy-Stage-dev", "ManualApproval-dev"]] :=
  ⟨rfl, rfl, rfl, rfl, rfl⟩

/-- C4: the claim says every exit path of a run removes the rendered blueprint
directory and the archive.  Only the fall-through success path reaches the two
cleanup calls (first conjunct: a successful bootstrap run ends with an empty
working tree); there is no `try/finally`, so a run that fails at the
compliance check returns with the rendered tree, the buildspec, the descriptor
and `code.zip` still on disk (second conjunct).  Even a *successful* update
run leaves the rendered `ddk.json` at the blueprint root (third conjunct). -/
theorem c4_artifact_cleanup_eval :
    (pipelineStack_run "repo0" false none).2 = [] ∧
    pipelineStack_run "repo0" false (some .complianceCheck) =
      (some .complianceCheck,
       ["blueprints/data_pipeline_blueprint/repo0",
        "blueprints/data_pipeline_blueprint/repo0/deploy_buildspec.yaml",
        "blueprints/data_pipeline_blueprint/repo0/ddk.json",
        "blueprints/data_pipeline_blueprint/repo0/code.zip"]) ∧
    (pipelineStack_run "repo0" true none).2 = ["blueprints/data_pipeline_blueprint/ddk.json"] :=
  ⟨rfl, rfl, rfl⟩

/-- C6 counterexample: the claim's "bound to branch `main` if and only if the
stage equals `prod`" fails for an environment whose stage is literally named
`main`: the code binds its pipeline to branch `main` although the stage is not
`prod`. -/
theorem c6_stage_named_main_counterexample :
    (gitflow_pipelines p0gitflow [devEnv "main" 1]).map sourceBranches = [["main"]] ∧
    (devEnv "main" 1).stage ≠ "prod" :=
  ⟨rfl, by decide⟩

/-- C6 (amended): in gitflow synthesis one independent pipeline per
environment is produced, named `<pipeline-name>-<stage>`; its source stage is
bound to branch `main` when the stage equals `prod` and otherwise to the
branch named exactly after the stage (so a stage literally named `main` is
also bound to branch `main`); and no gitflow pipeline contains a
`ManualApproval` stage. -/
theorem c6_gitflow_topology (pipeline : DataPipeline)
    (development_environments : List DataPipelineEnvironment) :
    (gitflow_pipelines pipeline development_environments).map SynthPipeline.name =
      development_environments.map (fun env => pipeline.name ++ "-" ++ env.stage) ∧
    (gitflow_pipelines pipeline development_environments).map sourceBranches =
      development_environments.map
        (fun env => [if env.stage == "prod" then "main" else env.stage]) ∧
    ((gitflow_pipelines pipeline development_environments).all
        fun pl => pl.stages.all fun st => !isApproval st) = true := by
  refine ⟨?_, ?_, ?_⟩ <;>
    induction development_environments with
    | nil => rfl
    | cons e t ih =>
        simp only [gitflow_pipelines, List.map_map, List.map_cons, List.all_cons,
          List.all_map] at ih ⊢
        simp [sourceBranches, isApproval, ih]

/-- C7: the build environment variable mapping contains exactly the ten fixed
keys in the source's order (first conjunct), each bound to the literal current
attribute of its source record (middle conjuncts, one lookup per key), and
replacing the environment's account id changes exactly the `AWSACCOUNTID`
entry and nothing else (last conjunct). -/
theorem c7_environment_variable_mapping (pipeline : DataPipeline)
    (env : DataPipelineEnvironment) (team stage : String) (stages : List String)
    (account : String) :
    (make_environment_variables pipeline env team stage stages).map Prod.fst =
      ["PIPELINE_URI", "PIPELINE_NAME", "STAGE", "DEV_STAGES", "DEV_STRATEGY", "TEMPLATE",
       "ENVIRONMENT_URI", "AWSACCOUNTID", "AWSREGION", "ENVTEAM_ROLENAME"] ∧
    (make_environment_variables pipeline env team stage stages).lookup "PIPELINE_URI" =
      some (.str pipeline.DataPipelineUri) ∧
    (make_environment_variables pipeline env team stage stages).lookup "PIPELINE_NAME" =
      some (.str pipeline.name) ∧
    (make_environment_variables pipeline env team stage stages).lookup "STAGE" =
      some (.str stage) ∧
    (make_environment_variables pipeline env team stage stages).lookup "DEV_STAGES" =
      some (.strList stages) ∧
    (make_environment_variables pipeline env team stage stages).lookup "DEV_STRATEGY" =
      some (.str pipeline.devStrategy) ∧
    (make_environment_variables pipeline env team stage stages).lookup "TEMPLATE" =
      some (.str pipeline.template) ∧
    (make_environment_variables pipeline env team stage stages).lookup "ENVIRONMENT_URI" =
      some (.str env.environmentUri) ∧
    (make_environment_variables pipeline env team stage stages).lookup "AWSACCOUNTID" =
      some (.str env.AwsAccountId) ∧
    (make_environment_variables pipeline env team stage stages).lookup "AWSREGION" =
      some (.str env.region) ∧
    (make_environment_variables pipeline env team stage stages).lookup "ENVTEAM_ROLENAME" =
      some (.str team) ∧
    make_environment_variables pipeline { env with AwsAccountId := account } team stage stages =
      (make_environment_variables pipeline env team stage stages).map
        (fun kv => if kv.1 == "AWSACCOUNTID" then (kv.1, .str account) else kv) :=
  ⟨rfl, rfl, rfl, rfl, rfl, rfl, rfl, rfl, rfl, rfl, rfl, rfl⟩

/-- C9 counterexample: the claim says the build phase contains the deploy
invocation as its *sole* build command; the rendered buildspec's build phase
contains two commands, `aws sts get-caller-identity` followed by `ddk deploy`
(the first conjunct ties the structured phases to the literal rendered
string). -/
theorem c9_extra_build_command_counterexample :
    write_deploy_buildspec =
      renderBuildspec "              " ["                ", "                    "] deployBuildspec ∧
    deployBuildspec.phases.map BuildspecPhase.commands =
      [["n 16.15.1", "npm install -g aws-cdk", "pip install aws-ddk",
        "pip install -r requirements.txt"],
       ["aws sts get-caller-identity", "ddk deploy"]] ∧
    (["aws sts get-caller-identity", "ddk deploy"] : List String) ≠ ["ddk deploy"] :=
  ⟨rfl, rfl, by decide⟩

/-- C9 (amended): the rendered buildspec has exactly the two phases
`pre_build` (toolchain installation) and `build`, and the build phase contains
exactly two commands — an identity check `aws sts get-caller-identity`
followed by the build tool's deploy invocation `ddk deploy` as its final
command.  The first conjunct ties the structured phase list to the literal
string the source writes. -/
theorem c9_buildspec_phases :
    write_deploy_buildspec =
      renderBuildspec "              " ["                ", "                    "] deployBuildspec ∧
    deployBuildspec.phases.map BuildspecPhase.name = ["pre_build", "build"] ∧
    (deployBuildspec.phases.map BuildspecPhase.commands).getLast? =
      some ["aws sts get-caller-identity", "ddk deploy"] :=
  ⟨rfl, rfl, rfl⟩

/-- Helper: one environment's rendered descriptor entry (with its leading
comma separator) equals the source's `json_env` f-string block, for any
continuation `s`. -/
theorem render_env_entry (env : DataPipelineEnvironment) (s : String) :
    ",\n" ++ (indentStr 8 ++ ("\"" ++ (env.stage ++ ("\": " ++
      (renderJson 8 (.obj (envEntryFields env)) ++ s))))) =
    ddk_json_env env ++ s := by
  simp only [renderJson, renderFields, renderFieldsRest, envEntryFields, indentStr,
    ddk_json_env, String.append_assoc]
  rfl

/-- Helper: the source's fold accumulating the per-environment blocks equals
the rendered remaining-fields list of the structured descriptor. -/
theorem foldl_ddk_json_env (envs : List DataPipelineEnvironment) (acc : String) :
    envs.foldl (fun a env => a ++ ddk_json_env env) acc =
      acc ++ renderFieldsRest 8 (envsFields envs) := by
  induction envs generalizing acc with
  | nil => simp [envsFields, renderFieldsRest, String.append_empty]
  | cons e t ih =>
      rw [List.foldl_cons, ih, String.append_assoc]
      congr 1
      rw [envsFields, renderFieldsRest]
      exact (render_env_entry e (renderFieldsRest 8 (envsFields t))).symm

/-- C8: for every CICD environment and development environment list, the
rendered `ddk.json` text equals the rendering of the structured descriptor
`{"environments": {"cicd": {account, region, stage: "cicd"}, <stage>:
{account, region, stage, env_vars: {database, Team}}, ...}}` — so the
descriptor is a JSON document of the claimed fixed shape, with the `cicd`
entry carrying the CICD account and region under stage name `cicd` and one
entry per development environment keyed by its stage carrying its account,
region, stage and a variable bag with its team; determinism for identical
inputs is immediate since rendering is a pure function of these inputs. -/
theorem c8_descriptor_shape (pipeline_environment : CicdEnvironment)
    (development_environments : List DataPipelineEnvironment) :
    write_ddk_json_multienvironment pipeline_environment development_environments =
      renderJson 0 (ddkDescriptor pipeline_environment development_environments) := by
  unfold write_ddk_json_multienvironment ddkDescriptor
  rw [foldl_ddk_json_env development_environments ""]
  simp only [renderJson, renderFields, renderFieldsRest, indentStr, String.append_assoc]
  generalize renderFieldsRest 8 (envsFields development_environments) = s
  rfl

end PipelineStack
